import Mathlib

/-!
Verification of the request-authorization and rate-limiting pipeline of the
python_curd repository (a FastAPI CRUD backend).  The Python source under
`app/` is shallowly embedded: timestamps are naturals (seconds), HTTP
responses are a record of status code, body text and header list, and each
middleware or model method becomes a pure Lean function over explicit state.
Signed JWTs are modelled with an idealized collision-free MAC: the signature
of a payload under a key is the pair of the payload and the key, so a
signature matches during decoding exactly when payload and key agree.
-/

namespace PythonCurd

/-- An HTTP response: status code, body text (the JSON `detail` content) and
response headers as an association list. -/
structure Response where
  status_code : Nat
  detail : String
  headers : List (String × String)
deriving DecidableEq, Repr

/-- A stand-in downstream response, used where a middleware calls
`call_next(request)` and the inner application answers normally. -/
def okResponse : Response :=
  { status_code := 200, detail := "ok", headers := [] }

/-- `AppError` (app/utils/error_handlers.py lines 5-16): an application error
carrying a message and an HTTP status code.  The optional `details` dict only
decorates the JSON body and is not modelled. -/
structure AppErrorM where
  message : String
  status_code : Nat
deriving DecidableEq, Repr

/-- `ValidationError` (app/utils/error_handlers.py lines 19-22): status 400. -/
def validationError (msg : String) : AppErrorM := ⟨msg, 400⟩

/-- `NotFoundError` (app/utils/error_handlers.py lines 25-28): status 404. -/
def notFoundError (msg : String) : AppErrorM := ⟨msg, 404⟩

/-- `DatabaseError` (app/utils/error_handlers.py lines 31-34): status 500. -/
def databaseError (msg : String) : AppErrorM := ⟨msg, 500⟩

/-- `ERROR_MESSAGES["USER_NOT_FOUND"]` (app/utils/error_handlers.py). -/
def USER_NOT_FOUND : String := "User not found"

/-- `ERROR_MESSAGES["EMAIL_SEND_FAILED"]` (app/utils/error_handlers.py). -/
def EMAIL_SEND_FAILED : String := "Failed to send email"

namespace RateLimiter

/-- The list comprehension of `RateLimiter.is_rate_limited`
(app/utils/rate_limiter.py lines 24-27): keep the timestamps `t` of one
client with `now - t < 60`.  Python float subtraction of a timestamp that
lies in the future of `now` is negative, hence `< 60`; truncated natural
subtraction gives `0 < 60` there, so the entry is kept in both semantics. -/
def pruneWindow (now : Nat) (hist : List Nat) : List Nat :=
  hist.filter (fun t => now - t < 60)

/-- `RateLimiter.is_rate_limited` (app/utils/rate_limiter.py lines 19-33) for
one client: prune entries older than 60 seconds, reject (`true`) when the
retained count has reached `limit` (`self.requests_per_minute`, default 60),
otherwise record `now` and admit (`false`).  The result carries the decision
and the stored history after the call; the per-client dictionary
`self.requests` is represented by the history of the one client involved,
since the method touches no other key. -/
def is_rate_limited (limit : Nat) (hist : List Nat) (now : Nat) : Bool × List Nat :=
  let retained := pruneWindow now hist
  if limit ≤ retained.length then (true, retained)
  else (false, retained ++ [now])

/-- `rate_limit_middleware` (app/utils/rate_limiter.py lines 44-59): on a
limited client return the 429 JSON response with a `Retry-After: 60` header;
otherwise pass the downstream response through.  `call_next` is the response
of the inner application. -/
def rate_limit_middleware (limit : Nat) (hist : List Nat) (now : Nat)
    (call_next : Response) : Response × List Nat :=
  let r := is_rate_limited limit hist now
  if r.1 then
    ({ status_code := 429
     , detail := "Too many requests. Please try again later."
     , headers := [("Retry-After", "60")] }, r.2)
  else (call_next, r.2)

/-- A sequence of admission checks for one client: each element of `ts` is the
arrival time of one call to `is_rate_limited`; returns the list of decisions
and the final stored history. -/
def runChecks (limit : Nat) (hist : List Nat) : List Nat → List Bool × List Nat
  | [] => ([], hist)
  | t :: ts =>
    let r := is_rate_limited limit hist t
    let rest := runChecks limit r.2 ts
    (r.1 :: rest.1, rest.2)

/-- Two admission checks from the same client, serialized by the
`asyncio.Lock` that `is_rate_limited` holds over its whole
read-filter-check-append body (app/utils/rate_limiter.py lines 21-33).
`firstScheduled` selects which of the two possible serial orders the lock
produced; the result pairs the decision of request 1 with the decision of
request 2 and returns the final history. -/
def twoChecks (limit : Nat) (hist : List Nat) (t1 t2 : Nat)
    (firstScheduled : Bool) : (Bool × Bool) × List Nat :=
  if firstScheduled then
    let r1 := is_rate_limited limit hist t1
    let r2 := is_rate_limited limit r1.2 t2
    ((r1.1, r2.1), r2.2)
  else
    let r2 := is_rate_limited limit hist t2
    let r1 := is_rate_limited limit r2.2 t1
    ((r1.1, r2.1), r1.2)

end RateLimiter

namespace Config

/-- The class attributes defined by `Settings` in app/core/config.py
(lines 7-39), in source order.  This is the complete attribute set of the
class; an access to any other name raises `AttributeError` at runtime. -/
def settingsAttrs : List String :=
  ["SECRET_KEY", "API_KEY", "ACCESS_TOKEN_EXPIRE_MINUTES", "ALGORITHM",
   "TOKEN_URL", "SMTP_HOST", "SMTP_PORT", "SMTP_USERNAME", "SMTP_PASSWORD",
   "FRONTEND_URL", "MONGODB_URL", "MONGODB_DB", "ALLOWED_ORIGINS",
   "REQUESTS_PER_MINUTE", "CSP_POLICY", "HSTS_MAX_AGE", "API_V1_PREFIX",
   "PROJECT_NAME", "DEBUG"]

end Config

namespace Security

/-- The payload of a session token: `create_access_token` is called with
`data = {"sub": username}` and adds the `exp` claim, so the payload is
modelled by its `sub` claim (an absent key is `none`) and its expiry
instant. -/
structure Claims where
  sub : Option String
  exp : Nat
deriving DecidableEq, Repr

/-- A signed token with payload type `α`.  The signature is the idealized MAC
described in the module docstring: the pair of the signed payload and the
signing key. -/
structure Signed (α : Type) where
  payload : α
  sig : α × String
deriving DecidableEq, Repr

/-- `jwt.encode(payload, key, algorithm)`: attach the MAC of the payload
under `key`. -/
def jwt_encode {α : Type} (payload : α) (key : String) : Signed α :=
  ⟨payload, (payload, key)⟩

/-- `jwt.decode(token, key, algorithms)`: check the signature against `key`,
then check the `exp` claim against the current time (both python-jose and
PyJWT verify `exp` during decoding and raise their `JWTError` or
`PyJWTError` subclass when it has passed); `expOf` extracts the `exp` claim
from the payload type in use.  `none` models the raised decoding error. -/
def jwt_decode {α : Type} [DecidableEq α] (expOf : α → Nat) (tok : Signed α)
    (key : String) (now : Nat) : Option α :=
  if tok.sig = (tok.payload, key) then
    if expOf tok.payload < now then none
    else some tok.payload
  else none

/-- `ACCESS_TOKEN_EXPIRE_MINUTES` (app/utils/security.py line 17, default). -/
def ACCESS_TOKEN_EXPIRE_MINUTES : Nat := 30

/-- `create_access_token` (app/utils/security.py lines 49-61): set the expiry
to `now` plus the explicit delta (in seconds) or the 30-minute default, and
encode the payload under the secret key. -/
def create_access_token (sub : Option String) (expires_delta : Option Nat)
    (key : String) (now : Nat) : Signed Claims :=
  let expire := match expires_delta with
    | some d => now + d
    | none => now + ACCESS_TOKEN_EXPIRE_MINUTES * 60
  jwt_encode { sub := sub, exp := expire } key

/-- The `credentials_exception` of `verify_token` (app/utils/security.py
lines 66-70): HTTP 401 with a WWW-Authenticate header. -/
def credentials_exception : Response :=
  { status_code := 401
  , detail := "Could not validate credentials"
  , headers := [("WWW-Authenticate", "Bearer")] }

/-- `verify_token` (app/utils/security.py lines 63-84): decode the token,
fail with the credentials exception on any `JWTError` (bad signature or
expired token) or on a missing `sub` claim, otherwise return the subject
(the `TokenData.username` it wraps). -/
def verify_token (tok : Signed Claims) (key : String) (now : Nat) :
    Except Response String :=
  match jwt_decode Claims.exp tok key now with
  | none => .error credentials_exception
  | some payload =>
    match payload.sub with
    | none => .error credentials_exception
    | some username => .ok username

/-- `get_security_headers` (app/utils/security.py lines 98-109), with the
default environment values of `HSTS_MAX_AGE` and `CSP_POLICY`. -/
def get_security_headers : List (String × String) :=
  [("X-Content-Type-Options", "nosniff"),
   ("X-Frame-Options", "DENY"),
   ("X-XSS-Protection", "1; mode=block"),
   ("Strict-Transport-Security", "max-age=31536000; includeSubDomains"),
   ("Content-Security-Policy", "default-src \x27self\x27"),
   ("Referrer-Policy", "strict-origin-when-cross-origin"),
   ("Permissions-Policy", "geolocation=(), microphone=(), camera=()")]

end Security

namespace UserModel

open Security

/-- The payload of a password-reset token (app/models/user.py lines 180-187):
a `user_id` claim (absent key modelled as `none`; document ids modelled as
naturals) and the `exp` claim. -/
structure ResetClaims where
  user_id : Option Nat
  exp : Nat
deriving DecidableEq, Repr

/-- A document of the `users` collection, restricted to the fields the
verified operations read or write. -/
structure UserRec where
  id : Nat
  username : String
  email : String
  password : String
  reset_token : Option (Signed ResetClaims)
  reset_token_expires : Option Nat
deriving DecidableEq, Repr

/-- `User.get_by_id` (app/models/user.py lines 73-90): `find_one` on `_id`. -/
def get_by_id (store : List UserRec) (uid : Nat) : Option UserRec :=
  store.find? (fun u => u.id == uid)

/-- `User.get_by_email` (app/models/user.py lines 92-109). -/
def get_by_email (store : List UserRec) (email : String) : Option UserRec :=
  store.find? (fun u => u.email == email)

/-- `User.get_by_username` (app/models/user.py lines 111-128). -/
def get_by_username (store : List UserRec) (username : String) : Option UserRec :=
  store.find? (fun u => u.username == username)

/-- `get_password_hash` (app/utils/security.py lines 44-47): bcrypt hashing,
modelled as an injective tagging function; no claim under proof depends on
one-wayness. -/
def get_password_hash (password : String) : String :=
  "bcrypt:" ++ password

/-- `User.create_reset_token` (app/models/user.py lines 171-208): look the
user up by email (returning `none` and leaving the store unchanged when the
email is unknown), sign a token carrying the user id with a 1-hour expiry,
and persist both the token and its expiry instant on the user document. -/
def create_reset_token (store : List UserRec) (email : String) (key : String)
    (now : Nat) : Option (Signed ResetClaims) × List UserRec :=
  match get_by_email store email with
  | none => (none, store)
  | some u =>
    let tok := jwt_encode { user_id := some u.id, exp := now + 3600 } key
    (some tok,
     store.map (fun v =>
       if v.id == u.id then
         { v with reset_token := some tok, reset_token_expires := some (now + 3600) }
       else v))

/-- `User.verify_reset_token` (app/models/user.py lines 210-238): decode the
token (any `PyJWTError` — bad signature or elapsed signed expiry — gives
`None`), require a `user_id` claim, look the user up, require the persisted
`reset_token` to equal the presented token, and require the persisted expiry
to still lie in the future.  The branch where the persisted token matches but
the persisted expiry is absent cannot be produced by the model operations
(both fields are always written together); the source would raise a
`TypeError` comparing `None` with a datetime there, and the model returns
`none`. -/
def verify_reset_token (store : List UserRec) (tok : Signed ResetClaims)
    (key : String) (now : Nat) : Option UserRec :=
  match jwt_decode ResetClaims.exp tok key now with
  | none => none
  | some payload =>
    match payload.user_id with
    | none => none
    | some uid =>
      match get_by_id store uid with
      | none => none
      | some user =>
        if user.reset_token ≠ some tok then none
        else
          match user.reset_token_expires with
          | none => none
          | some e => if e < now then none else some user

/-- `User.reset_password` (app/models/user.py lines 240-266): verify the
token; on success store the new password hash and `$unset` both
`reset_token` and `reset_token_expires` on the user document, reporting
success (`modified_count > 0` holds because the matched document is
rewritten). -/
def reset_password (store : List UserRec) (tok : Signed ResetClaims)
    (new_password : String) (key : String) (now : Nat) : Bool × List UserRec :=
  match verify_reset_token store tok key now with
  | none => (false, store)
  | some user =>
    (true,
     store.map (fun v =>
       if v.id == user.id then
         { v with password := get_password_hash new_password,
                  reset_token := none, reset_token_expires := none }
       else v))

end UserModel

namespace Routes

open Security UserModel

/-- A rejection produced before a handler body runs: either an
`HTTPException` raised by `verify_token`, or an `AppError` raised by a
dependency and answered by the registered `AppError` exception handler. -/
inductive AuthReject
  | httpError (r : Response)
  | appError (e : AppErrorM)
deriving DecidableEq, Repr

/-- `get_current_user` of app/routes/student_routes.py lines 28-35: verify
the bearer token, then re-resolve the subject against the users collection;
an unknown subject raises `ValidationError(ERROR_MESSAGES["USER_NOT_FOUND"])`
(status 400). -/
def student_get_current_user (store : List UserRec) (tok : Signed Claims)
    (key : String) (now : Nat) : Except AuthReject UserRec :=
  match verify_token tok key now with
  | .error e => .error (.httpError e)
  | .ok username =>
    match get_by_username store username with
    | none => .error (.appError (validationError USER_NOT_FOUND))
    | some u => .ok u

/-- `get_current_user` of app/routes/auth_routes.py lines 186-211 (the `/me`
endpoint): verify the bearer token, then re-resolve the subject; an unknown
subject raises `NotFoundError(ERROR_MESSAGES["USER_NOT_FOUND"])` (status
404).  On success the handler builds its `UserResponse` from the returned
user document. -/
def auth_me_get_current_user (store : List UserRec) (tok : Signed Claims)
    (key : String) (now : Nat) : Except AuthReject UserRec :=
  match verify_token tok key now with
  | .error e => .error (.httpError e)
  | .ok username =>
    match get_by_username store username with
    | none => .error (.appError (notFoundError USER_NOT_FOUND))
    | some u => .ok u

/-- The response message of `forgot_password`
(app/routes/auth_routes.py lines 149-151 and 157-159). -/
def genericResetMessage : String :=
  "If your email is registered, you will receive a password reset link."

/-- `forgot_password` (app/routes/auth_routes.py lines 139-162): create a
reset token; when the email is unknown answer the generic message at once;
otherwise send the reset email (`emailOk = false` models an SMTP failure,
which `send_reset_email` converts into
`DatabaseError(ERROR_MESSAGES["EMAIL_SEND_FAILED"])`) and answer the same
generic message.  The result carries the response message and the updated
user store. -/
def forgot_password (store : List UserRec) (email : String) (key : String)
    (now : Nat) (emailOk : Bool) : Except AppErrorM (String × List UserRec) :=
  match create_reset_token store email key now with
  | (none, store2) => .ok (genericResetMessage, store2)
  | (some _, store2) =>
    if emailOk then .ok (genericResetMessage, store2)
    else .error (databaseError EMAIL_SEND_FAILED)

end Routes

namespace Main

/-- The paths excused from the API-key check (app/main.py line 146). -/
def docPaths : List String := ["/docs", "/redoc", "/openapi.json"]

/-- An inbound request, restricted to what the modelled middleware reads:
the URL path, the `X-API-Key` header (absent modelled as `none`) and the
client address `request.client.host`. -/
structure Request where
  path : String
  apiKeyHeader : Option String
  clientIp : String
deriving DecidableEq, Repr

/-- The condition `not api_key or api_key != settings.API_KEY` of
`verify_api_key` (app/main.py line 153): an absent header and the empty
string are falsy, any other value is compared with the configured key. -/
def api_key_rejected (header : Option String) (apiKeyValue : String) : Bool :=
  match header with
  | none => true
  | some k => k == "" || k != apiKeyValue

/-- The outcome of the `rate_limit_middleware` body registered in app/main.py
lines 111-130. -/
inductive MainRateOutcome
  | allowed
  | limited
  | attrError
deriving DecidableEq, Repr

/-- `settings.RATE_LIMIT_DICT[client_ip] = time.time()`: dictionary update
on an association list. -/
def dictSet (d : List (String × Nat)) (k : String) (v : Nat) :
    List (String × Nat) :=
  (k, v) :: d.eraseP (fun p => p.1 == k)

/-- The `rate_limit_middleware` registered in app/main.py lines 111-130.
Both of its statements access `settings.RATE_LIMIT_DICT`; the model guards
the whole body on that name being an attribute of `Settings`
(`Config.settingsAttrs`), and takes the `AttributeError` branch when it is
not.  `dict` is the value the attribute would hold. -/
def main_rate_limit_middleware (dict : List (String × Nat)) (clientIp : String)
    (now : Nat) : MainRateOutcome × List (String × Nat) :=
  if "RATE_LIMIT_DICT" ∈ Config.settingsAttrs then
    match dict.lookup clientIp with
    | some t =>
      if now - t < 60 then (.limited, dict)
      else (.allowed, dictSet dict clientIp now)
    | none => (.allowed, dictSet dict clientIp now)
  else (.attrError, dict)

/-- The 429 response of the app/main.py middleware (lines 120-123): no
`Retry-After` header is attached there. -/
def mainLimited429 : Response :=
  { status_code := 429
  , detail := "Too many requests. Please try again in a minute."
  , headers := [] }

/-- An exception escaping a middleware body: the `HTTPException` raised by
`verify_api_key`, or the `AttributeError` raised by the
`settings.RATE_LIMIT_DICT` lookup. -/
inductive PyError
  | httpExc (status : Nat) (detail : String)
  | attributeError (attr : String)
deriving DecidableEq, Repr

/-- `MutableHeaders.__setitem__`: drop any existing entry for the key and
append the new value. -/
def setHeader (hs : List (String × String)) (k v : String) :
    List (String × String) :=
  hs.filter (fun p => p.1 != k) ++ [(k, v)]

/-- The header assignments of `add_security_headers` (app/main.py lines
136-139): exactly four headers are set on the response of the inner
stages. -/
def add_security_headers (r : Response) : Response :=
  let h1 := setHeader r.headers "X-Content-Type-Options" "nosniff"
  let h2 := setHeader h1 "X-Frame-Options" "DENY"
  let h3 := setHeader h2 "X-XSS-Protection" "1; mode=block"
  let h4 := setHeader h3 "Strict-Transport-Security" "max-age=31536000; includeSubDomains"
  { r with headers := h4 }

/-- `add_security_headers` acts on the value returned by `call_next`; an
exception raised below it propagates through the middleware untouched. -/
def apply_security_headers :
    Except PyError Response → Except PyError Response
  | .ok r => .ok (add_security_headers r)
  | .error e => .error e

/-- The stages of the middleware pipeline of app/main.py. -/
inductive MwTag
  | cors
  | apiKeyCheck
  | securityHeaders
  | rateLimit
deriving DecidableEq, Repr

/-- The three `@app.middleware("http")` registrations of app/main.py in file
order: `rate_limit_middleware` (line 111), `add_security_headers`
(line 133), `verify_api_key` (line 143). -/
def httpMiddlewareRegistrationOrder : List MwTag :=
  [.rateLimit, .securityHeaders, .apiKeyCheck]

/-- Starlette `add_middleware` semantics: each registration is prepended, so
the middleware registered last is outermost.  The `CORSMiddleware` added at
app/main.py line 162 is added after all three `@app.middleware("http")`
registrations and is therefore outermost of all.  The resulting order is the
outermost-first execution order of the stack. -/
def executionOrder : List MwTag :=
  .cors :: httpMiddlewareRegistrationOrder.foldl (fun stack m => m :: stack) []

/-- Run a middleware stack, outermost stage first, threading the
`RATE_LIMIT_DICT` value and recording the trace of stages whose bodies ran.
The CORS stage is modelled as a pass-through (its behavior on preflight
requests and on origin headers is outside the scope of the claims under
proof); `handlerResp` is the response the router would produce if reached. -/
def runStack (apiKeyValue : String) (handlerResp : Response) (req : Request)
    (now : Nat) :
    List MwTag → List (String × Nat) →
    List MwTag × Except PyError Response × List (String × Nat)
  | [], dict => ([], .ok handlerResp, dict)
  | .cors :: rest, dict =>
    let r := runStack apiKeyValue handlerResp req now rest dict
    (.cors :: r.1, r.2)
  | .apiKeyCheck :: rest, dict =>
    if req.path ∈ docPaths then
      let r := runStack apiKeyValue handlerResp req now rest dict
      (.apiKeyCheck :: r.1, r.2)
    else if api_key_rejected req.apiKeyHeader apiKeyValue then
      ([.apiKeyCheck], .error (.httpExc 401 "Invalid API key"), dict)
    else
      let r := runStack apiKeyValue handlerResp req now rest dict
      (.apiKeyCheck :: r.1, r.2)
  | .securityHeaders :: rest, dict =>
    let r := runStack apiKeyValue handlerResp req now rest dict
    (.securityHeaders :: r.1, apply_security_headers r.2.1, r.2.2)
  | .rateLimit :: rest, dict =>
    match main_rate_limit_middleware dict req.clientIp now with
    | (.attrError, d) =>
      ([.rateLimit], .error (.attributeError "RATE_LIMIT_DICT"), d)
    | (.limited, d) => ([.rateLimit], .ok mainLimited429, d)
    | (.allowed, d) =>
      let r := runStack apiKeyValue handlerResp req now rest d
      (.rateLimit :: r.1, r.2)

/-- Starlette `ServerErrorMiddleware` (outermost, added by FastAPI itself):
an exception escaping the user middleware stack is answered with a plain
`500 Internal Server Error` carrying no headers of this application. -/
def finalize : Except PyError Response → Response
  | .ok r => r
  | .error _ =>
    { status_code := 500, detail := "Internal Server Error", headers := [] }

/-- The response the application sends for one request: run the middleware
stack in execution order and send either the produced response or the
server-error conversion of an escaped exception. -/
def app_response (apiKeyValue : String) (handlerResp : Response)
    (req : Request) (now : Nat) (dict : List (String × Nat)) : Response :=
  finalize (runStack apiKeyValue handlerResp req now executionOrder dict).2.1

/-- `app_error_handler` (app/main.py lines 173-191): the exception handler
registered for `AppError` answers with the status code and message of the
error and attaches `get_security_headers()` — the full seven-header set. -/
def app_error_handler (e : AppErrorM) : Response :=
  { status_code := e.status_code
  , detail := e.message
  , headers := Security.get_security_headers }

/-- Membership of a header name in a response. -/
def hasHeader (r : Response) (k : String) : Bool :=
  r.headers.any (fun p => p.1 == k)

end Main

end PythonCurd

namespace PythonCurd.RateLimiter

theorem pruneWindow_eq_self (now : Nat) (hist : List Nat)
    (h : ∀ t ∈ hist, now < t + 60) : pruneWindow now hist = hist := by
  unfold pruneWindow
  rw [List.filter_eq_self]
  intro a ha
  have := h a ha
  simp only [decide_eq_true_eq]
  omega

theorem pruneWindow_sublist (now : Nat) (hist : List Nat) :
    (pruneWindow now hist).Sublist hist :=
  List.filter_sublist hist

/-- Every check of a batch that fits inside the limit and inside one
60-second window is admitted, and each admitted arrival time is recorded. -/
theorem runChecks_all_admitted (limit : Nat) :
    ∀ (ts hist : List Nat),
      hist.length + ts.length ≤ limit →
      (∀ a ∈ hist ++ ts, ∀ b ∈ hist ++ ts, b < a + 60) →
      runChecks limit hist ts = (List.replicate ts.length false, hist ++ ts) := by
  intro ts
  induction ts with
  | nil => intro hist _ _; simp [runChecks]
  | cons t ts ih =>
    intro hist hlen hwin
    have hpr : pruneWindow t hist = hist := by
      apply pruneWindow_eq_self
      intro a ha
      exact hwin a (by simp [ha]) t (by simp)
    have hlt : ¬ limit ≤ hist.length := by
      simp only [List.length_cons] at hlen
      omega
    have hstep : is_rate_limited limit hist t = (false, hist ++ [t]) := by
      simp [is_rate_limited, hpr, hlt]
    have hwin' : ∀ a ∈ (hist ++ [t]) ++ ts, ∀ b ∈ (hist ++ [t]) ++ ts, b < a + 60 := by
      intro a ha b hb
      rw [List.append_assoc, List.singleton_append] at ha hb
      exact hwin a ha b hb
    have ihr := ih (hist ++ [t])
      (by
        have h1 : (hist ++ [t]).length = hist.length + 1 := by simp
        simp only [List.length_cons] at hlen
        omega) hwin'
    simp only [runChecks, hstep, ihr, List.length_cons, List.replicate_succ]
    simp [List.append_assoc]

/-- Claim C1: for every client identity and every sequence of at most N
admission checks arriving within one trailing 60-second window (N the
configured limit, default 60 per minute), all checks are admitted; and once
N checks stand admitted, a further check from the same identity inside the
same window is rejected and answered with HTTP 429 by the rate-limit
middleware. -/
theorem sliding_window_admits_limit_then_rejects_429
    (N : Nat) (ts : List Nat) (te : Nat) (next : Response)
    (hwin : ∀ a ∈ ts ++ [te], ∀ b ∈ ts ++ [te], b < a + 60)
    (hlen : ts.length ≤ N) :
    (runChecks N [] ts).1 = List.replicate ts.length false ∧
    (ts.length = N →
      (rate_limit_middleware N (runChecks N [] ts).2 te next).1.status_code = 429) := by
  have hwts : ∀ a ∈ ts, ∀ b ∈ ts, b < a + 60 := by
    intro a ha b hb
    exact hwin a (by simp [ha]) b (by simp [hb])
  have hrun := runChecks_all_admitted N ts []
    (by simpa using hlen) (by simpa using hwts)
  constructor
  · rw [hrun]
  · intro hN
    have h2 : (runChecks N [] ts).2 = ts := by rw [hrun]; simp
    rw [h2]
    have hpr : pruneWindow te ts = ts := by
      apply pruneWindow_eq_self
      intro a ha
      exact hwin a (by simp [ha]) te (by simp)
    have hfull : is_rate_limited N ts te = (true, ts) := by
      simp [is_rate_limited, hpr, hN]
    simp [rate_limit_middleware, hfull]

/-- Claim C1 witness: limit 2, two checks at times 0 and 10 are both
admitted; a third at time 20, inside the same window, gets a 429. -/
theorem sliding_window_admits_limit_then_rejects_429_witness :
    (runChecks 2 [] [0, 10]).1 = List.replicate ([0, 10] : List Nat).length false ∧
    (rate_limit_middleware 2 (runChecks 2 [] [0, 10]).2 20 okResponse).1.status_code = 429 :=
  ⟨(sliding_window_admits_limit_then_rejects_429 2 [0, 10] 20 okResponse
      (by decide) (by decide)).1,
   (sliding_window_admits_limit_then_rejects_429 2 [0, 10] 20 okResponse
      (by decide) (by decide)).2 (by decide)⟩

/-- One check keeps the stored history within the limit: an admission
requires the pruned count to be below the limit before appending one entry,
and a rejection stores back a sublist of the prior history. -/
theorem is_rate_limited_length_le (limit : Nat) (hist : List Nat) (now : Nat)
    (hb : hist.length ≤ limit) :
    ((is_rate_limited limit hist now).2).length ≤ limit := by
  have hsub := (pruneWindow_sublist now hist).length_le
  unfold is_rate_limited
  by_cases h : limit ≤ (pruneWindow now hist).length
  · simp only [h, if_pos]
    omega
  · simp only [h, if_neg, not_false_eq_true, List.length_append,
      List.length_singleton]
    omega

/-- The bound is an invariant of every execution: any sequence of checks
started from a history within the limit — in particular from the empty
initial history of a fresh client — ends within the limit. -/
theorem runChecks_length_le (limit : Nat) :
    ∀ (ts hist : List Nat), hist.length ≤ limit →
      ((runChecks limit hist ts).2).length ≤ limit := by
  intro ts
  induction ts with
  | nil => intro hist hb; simpa [runChecks] using hb
  | cons t ts ih =>
    intro hist hb
    exact ih (is_rate_limited limit hist t).2 (is_rate_limited_length_le limit hist t hb)

/-- On a history within the limit, a rejection forces the prune to keep
every entry: the pruned list is a sublist of the history whose length is at
least the limit, hence at least the history length, so the two coincide and
the rejection hands back the 429 response with the history unchanged. -/
theorem rejection_preserves_bounded_history
    (limit : Nat) (hist : List Nat) (now : Nat) (next : Response)
    (hb : hist.length ≤ limit)
    (hrej : (is_rate_limited limit hist now).1 = true) :
    rate_limit_middleware limit hist now next =
      ({ status_code := 429
       , detail := "Too many requests. Please try again later."
       , headers := [("Retry-After", "60")] }, hist) := by
  unfold rate_limit_middleware
  unfold is_rate_limited at hrej ⊢
  by_cases h : limit ≤ (pruneWindow now hist).length
  · have heq : pruneWindow now hist = hist :=
      (pruneWindow_sublist now hist).eq_of_length_le (by omega)
    rw [heq] at h
    simp [heq, h]
  · simp [h] at hrej

/-- Claim C3: along every execution — any sequence `ts` of prior admission
checks applied to the initially empty history of a client — a check rejected
by the rate limiter is answered with HTTP 429, a `Retry-After: 60` header
and the JSON detail text, and the rejected attempt is not recorded: the
stored per-identity history after the rejection equals the history held
before it.  (Stored histories never exceed `limit` entries, so the prune
step of a rejected check keeps every stored entry.) -/
theorem rejected_attempt_not_recorded
    (limit : Nat) (ts : List Nat) (now : Nat) (next : Response)
    (hrej : (is_rate_limited limit (runChecks limit [] ts).2 now).1 = true) :
    rate_limit_middleware limit (runChecks limit [] ts).2 now next =
      ({ status_code := 429
       , detail := "Too many requests. Please try again later."
       , headers := [("Retry-After", "60")] }, (runChecks limit [] ts).2) :=
  rejection_preserves_bounded_history limit _ now next
    (runChecks_length_le limit ts [] (by simp)) hrej

/-- Claim C3 witness: limit 1, one prior admitted check at time 5, rejection
at time 10 — the stored history stays [5]. -/
theorem rejected_attempt_not_recorded_witness :
    (is_rate_limited 1 (runChecks 1 [] [5]).2 10).1 = true ∧
    rate_limit_middleware 1 (runChecks 1 [] [5]).2 10 okResponse =
      ({ status_code := 429
       , detail := "Too many requests. Please try again later."
       , headers := [("Retry-After", "60")] }, (runChecks 1 [] [5]).2) :=
  ⟨by decide, rejected_attempt_not_recorded 1 [5] 10 okResponse (by decide)⟩

/-- Claim C10: when exactly one admission slot remains in the window, the
two serial executions that the lock held over the read-filter-check-append
body allows for two concurrent checks from the same identity each admit
exactly one request and reject the other; under the lock no interleaving can
admit both. -/
theorem concurrent_checks_one_slot_exactly_one_admitted
    (N : Nat) (hist : List Nat) (t1 t2 : Nat) (ord : Bool)
    (hwin : ∀ a ∈ hist ++ [t1, t2], ∀ b ∈ hist ++ [t1, t2], b < a + 60)
    (hlen : hist.length + 1 = N) :
    ((twoChecks N hist t1 t2 ord).1.1 = false ∧
     (twoChecks N hist t1 t2 ord).1.2 = true) ∨
    ((twoChecks N hist t1 t2 ord).1.1 = true ∧
     (twoChecks N hist t1 t2 ord).1.2 = false) := by
  have hmem : ∀ a ∈ hist, a ∈ hist ++ [t1, t2] := fun a ha => by simp [ha]
  have ht1 : t1 ∈ hist ++ [t1, t2] := by simp
  have ht2 : t2 ∈ hist ++ [t1, t2] := by simp
  have hpr1 : pruneWindow t1 hist = hist :=
    pruneWindow_eq_self _ _ (fun a ha => hwin a (hmem a ha) t1 ht1)
  have hpr2 : pruneWindow t2 hist = hist :=
    pruneWindow_eq_self _ _ (fun a ha => hwin a (hmem a ha) t2 ht2)
  have hpr12 : pruneWindow t2 (hist ++ [t1]) = hist ++ [t1] := by
    apply pruneWindow_eq_self
    intro a ha
    rcases List.mem_append.mp ha with h | h
    · exact hwin a (hmem a h) t2 ht2
    · simp only [List.mem_singleton] at h
      exact hwin a (h ▸ ht1) t2 ht2
  have hpr21 : pruneWindow t1 (hist ++ [t2]) = hist ++ [t2] := by
    apply pruneWindow_eq_self
    intro a ha
    rcases List.mem_append.mp ha with h | h
    · exact hwin a (hmem a h) t1 ht1
    · simp only [List.mem_singleton] at h
      exact hwin a (h ▸ ht2) t1 ht1
  cases ord with
  | true =>
    left
    have s1 : is_rate_limited N hist t1 = (false, hist ++ [t1]) := by
      unfold is_rate_limited
      rw [hpr1, if_neg (by omega)]
    have s2 : is_rate_limited N (hist ++ [t1]) t2 = (true, hist ++ [t1]) := by
      unfold is_rate_limited
      rw [hpr12, if_pos (by simp; omega)]
    simp [twoChecks, s1, s2]
  | false =>
    right
    have s1 : is_rate_limited N hist t2 = (false, hist ++ [t2]) := by
      unfold is_rate_limited
      rw [hpr2, if_neg (by omega)]
    have s2 : is_rate_limited N (hist ++ [t2]) t1 = (true, hist ++ [t2]) := by
      unfold is_rate_limited
      rw [hpr21, if_pos (by simp; omega)]
    simp [twoChecks, s1, s2]

/-- Claim C10 witness: limit 2, one slot left (history [0]), concurrent
checks at times 5 and 6, both serial orders. -/
theorem concurrent_checks_one_slot_exactly_one_admitted_witness :
    ((((twoChecks 2 [0] 5 6 true).1.1 = false ∧ (twoChecks 2 [0] 5 6 true).1.2 = true) ∨
      ((twoChecks 2 [0] 5 6 true).1.1 = true ∧ (twoChecks 2 [0] 5 6 true).1.2 = false)) ∧
     (((twoChecks 2 [0] 5 6 false).1.1 = false ∧ (twoChecks 2 [0] 5 6 false).1.2 = true) ∨
      ((twoChecks 2 [0] 5 6 false).1.1 = true ∧ (twoChecks 2 [0] 5 6 false).1.2 = false))) :=
  ⟨concurrent_checks_one_slot_exactly_one_admitted 2 [0] 5 6 true (by decide) (by decide),
   concurrent_checks_one_slot_exactly_one_admitted 2 [0] 5 6 false (by decide) (by decide)⟩

end PythonCurd.RateLimiter

namespace PythonCurd.Main

/-- Claim C2: the `Settings` class of app/core/config.py defines no
attribute named RATE_LIMIT_DICT, so the rate-limit middleware registered in
app/main.py ends every evaluation in its `AttributeError` branch instead of
producing an allow or limit decision — the active rate-limit path is not
total for any input. -/
theorem main_rate_limit_attribute_lookup_always_fails :
    Config.settingsAttrs.contains "RATE_LIMIT_DICT" = false ∧
    ∀ (dict : List (String × Nat)) (clientIp : String) (now : Nat),
      (main_rate_limit_middleware dict clientIp now).1 =
        MainRateOutcome.attrError := by
  refine ⟨by decide, ?_⟩
  intro dict clientIp now
  unfold main_rate_limit_middleware
  rw [if_neg (by decide)]

/-- Any request with a missing or wrong API key on a non-documentation path
is answered by the API-key stage alone: the trace stops there and the inner
stages — security headers, rate limit, router — never run. -/
theorem runStack_bad_key (apiKeyValue : String) (handlerResp : Response)
    (req : Request) (now : Nat) (dict : List (String × Nat))
    (hpath : req.path ∉ docPaths)
    (hkey : api_key_rejected req.apiKeyHeader apiKeyValue = true) :
    runStack apiKeyValue handlerResp req now executionOrder dict =
      ([MwTag.cors, MwTag.apiKeyCheck],
       Except.error (PyError.httpExc 401 "Invalid API key"), dict) := by
  have hexec : executionOrder =
      [MwTag.cors, MwTag.apiKeyCheck, MwTag.securityHeaders, MwTag.rateLimit] := rfl
  rw [hexec]
  simp [runStack, hpath, hkey]

/-- Claim C4 counterexample: a request with a wrong API key reaches the
API-key comparison and is rejected there while the rate limiter never ran:
its stage is absent from the execution trace and its state is untouched, so
this request reached the API-key comparison without any rate-limit admission
decision. -/
theorem rate_limit_before_api_key_counterexample :
    runStack "expected-key" okResponse
        { path := "/api/v1/students/", apiKeyHeader := some "wrong",
          clientIp := "203.0.113.7" } 0 executionOrder [] =
      ([MwTag.cors, MwTag.apiKeyCheck],
       Except.error (PyError.httpExc 401 "Invalid API key"), []) ∧
    MwTag.rateLimit ∉ [MwTag.cors, MwTag.apiKeyCheck] := by
  exact ⟨rfl, by decide⟩

/-- Claim C4 amended: middleware registered later runs earlier (Starlette
`add_middleware` prepends), so the execution order is CORS, API-key check,
security headers, rate limit — the API-key check precedes the rate limiter,
and every request with a missing or wrong API key on a non-documentation
path is rejected by the API-key comparison with the rate limiter never
evaluated. -/
theorem api_key_check_runs_before_rate_limiter
    (apiKeyValue : String) (handlerResp : Response) (req : Request)
    (now : Nat) (dict : List (String × Nat))
    (hpath : req.path ∉ docPaths)
    (hkey : api_key_rejected req.apiKeyHeader apiKeyValue = true) :
    executionOrder =
      [MwTag.cors, MwTag.apiKeyCheck, MwTag.securityHeaders, MwTag.rateLimit] ∧
    runStack apiKeyValue handlerResp req now executionOrder dict =
      ([MwTag.cors, MwTag.apiKeyCheck],
       Except.error (PyError.httpExc 401 "Invalid API key"), dict) :=
  ⟨rfl, runStack_bad_key apiKeyValue handlerResp req now dict hpath hkey⟩

/-- Claim C4 witness: a request with no API key header at all. -/
theorem api_key_check_runs_before_rate_limiter_witness :
    (executionOrder =
      [MwTag.cors, MwTag.apiKeyCheck, MwTag.securityHeaders, MwTag.rateLimit] ∧
    runStack "k" okResponse
        { path := "/api/v1/auth/login", apiKeyHeader := none,
          clientIp := "192.0.2.1" } 7 executionOrder [("192.0.2.1", 3)] =
      ([MwTag.cors, MwTag.apiKeyCheck],
       Except.error (PyError.httpExc 401 "Invalid API key"),
       [("192.0.2.1", 3)])) :=
  api_key_check_runs_before_rate_limiter "k" okResponse
    { path := "/api/v1/auth/login", apiKeyHeader := none, clientIp := "192.0.2.1" }
    7 [("192.0.2.1", 3)] (by decide) (by decide)

theorem any_filter_ne (k k2 : String) (h : k ≠ k2) :
    ∀ hs : List (String × String),
      (hs.filter (fun p => p.1 != k)).any (fun p => p.1 == k2) =
        hs.any (fun p => p.1 == k2)
  | [] => rfl
  | a :: tl => by
    by_cases ha : a.1 = k
    · have hne : (a.1 == k2) = false := by
        rw [ha]
        exact beq_eq_false_iff_ne.mpr h
      rw [List.filter_cons, if_neg (by simp [ha]), List.any_cons, hne,
        Bool.false_or]
      exact any_filter_ne k k2 h tl
    · rw [List.filter_cons, if_pos (by simpa using ha), List.any_cons,
        List.any_cons, any_filter_ne k k2 h tl]

theorem any_setHeader_self (hs : List (String × String)) (k v : String) :
    (setHeader hs k v).any (fun p => p.1 == k) = true := by
  simp [setHeader, List.any_append]

theorem any_setHeader_ne (hs : List (String × String)) (k v k2 : String)
    (h : k ≠ k2) :
    (setHeader hs k v).any (fun p => p.1 == k2) =
      hs.any (fun p => p.1 == k2) := by
  simp [setHeader, List.any_append, any_filter_ne k k2 h,
    beq_eq_false_iff_ne.mpr h]

/-- Claim C5 counterexample: the response the application sends for a
request with a wrong API key is the server-error conversion of the exception
raised by `verify_api_key`; it bypasses the security-header middleware and
carries no headers at all — in particular none of the six required security
headers. -/
theorem full_security_header_set_counterexample :
    app_response "expected-key" okResponse
        { path := "/api/v1/students/", apiKeyHeader := some "bad",
          clientIp := "198.51.100.9" } 0 [] =
      { status_code := 500, detail := "Internal Server Error", headers := [] } :=
  rfl

/-- Claim C5 amended: header injection is not universal and not the full
set.  The `add_security_headers` middleware attaches exactly four headers
(content-type-sniffing protection, frame-deny, XSS filter, HSTS) to every
response the inner stages return, and adds no Content-Security-Policy,
Referrer-Policy or Permissions-Policy; those three appear only on responses
of the `AppError` exception handler, which attaches the full
`get_security_headers` set; and a request rejected by the API-key middleware
is answered past the header middleware entirely, with no headers at all. -/
theorem security_header_injection_actual_behavior
    (r : Response) (e : AppErrorM) (apiKeyValue : String)
    (handlerResp : Response) (req : Request) (now : Nat)
    (dict : List (String × Nat))
    (hcsp : hasHeader r "Content-Security-Policy" = false)
    (href : hasHeader r "Referrer-Policy" = false)
    (hperm : hasHeader r "Permissions-Policy" = false)
    (hpath : req.path ∉ docPaths)
    (hkey : api_key_rejected req.apiKeyHeader apiKeyValue = true) :
    hasHeader (add_security_headers r) "X-Content-Type-Options" = true ∧
    hasHeader (add_security_headers r) "X-Frame-Options" = true ∧
    hasHeader (add_security_headers r) "X-XSS-Protection" = true ∧
    hasHeader (add_security_headers r) "Strict-Transport-Security" = true ∧
    hasHeader (add_security_headers r) "Content-Security-Policy" = false ∧
    hasHeader (add_security_headers r) "Referrer-Policy" = false ∧
    hasHeader (add_security_headers r) "Permissions-Policy" = false ∧
    (app_error_handler e).headers = Security.get_security_headers ∧
    (app_response apiKeyValue handlerResp req now dict).headers = [] := by
  unfold hasHeader add_security_headers at *
  refine ⟨?_, ?_, ?_, ?_, ?_, ?_, ?_, rfl, ?_⟩
  · rw [any_setHeader_ne _ _ _ _ (by decide), any_setHeader_ne _ _ _ _ (by decide),
      any_setHeader_ne _ _ _ _ (by decide)]
    exact any_setHeader_self _ _ _
  · rw [any_setHeader_ne _ _ _ _ (by decide), any_setHeader_ne _ _ _ _ (by decide)]
    exact any_setHeader_self _ _ _
  · rw [any_setHeader_ne _ _ _ _ (by decide)]
    exact any_setHeader_self _ _ _
  · exact any_setHeader_self _ _ _
  · rw [any_setHeader_ne _ _ _ _ (by decide), any_setHeader_ne _ _ _ _ (by decide),
      any_setHeader_ne _ _ _ _ (by decide), any_setHeader_ne _ _ _ _ (by decide)]
    exact hcsp
  · rw [any_setHeader_ne _ _ _ _ (by decide), any_setHeader_ne _ _ _ _ (by decide),
      any_setHeader_ne _ _ _ _ (by decide), any_setHeader_ne _ _ _ _ (by decide)]
    exact href
  · rw [any_setHeader_ne _ _ _ _ (by decide), any_setHeader_ne _ _ _ _ (by decide),
      any_setHeader_ne _ _ _ _ (by decide), any_setHeader_ne _ _ _ _ (by decide)]
    exact hperm
  · unfold app_response
    rw [runStack_bad_key apiKeyValue handlerResp req now dict hpath hkey]
    rfl

/-- Claim C5 witness: the plain response of the inner stages gains the four
middleware headers and still lacks the other three; a bad-key request is
answered with no headers. -/
theorem security_header_injection_actual_behavior_witness :
    (hasHeader (add_security_headers okResponse) "X-Content-Type-Options" = true ∧
     hasHeader (add_security_headers okResponse) "X-Frame-Options" = true ∧
     hasHeader (add_security_headers okResponse) "X-XSS-Protection" = true ∧
     hasHeader (add_security_headers okResponse) "Strict-Transport-Security" = true ∧
     hasHeader (add_security_headers okResponse) "Content-Security-Policy" = false ∧
     hasHeader (add_security_headers okResponse) "Referrer-Policy" = false ∧
     hasHeader (add_security_headers okResponse) "Permissions-Policy" = false ∧
     (app_error_handler (validationError USER_NOT_FOUND)).headers =
       Security.get_security_headers ∧
     (app_response "k" okResponse
        { path := "/api/v1/students/", apiKeyHeader := some "nope",
          clientIp := "198.51.100.17" } 4 []).headers = []) :=
  security_header_injection_actual_behavior okResponse
    (validationError USER_NOT_FOUND) "k" okResponse
    { path := "/api/v1/students/", apiKeyHeader := some "nope",
      clientIp := "198.51.100.17" } 4 []
    (by decide) (by decide) (by decide) (by decide) (by decide)

end PythonCurd.Main

namespace PythonCurd.Security

theorem jwt_decode_some {α : Type} [DecidableEq α] (expOf : α → Nat)
    (tok : Signed α) (key : String) (now : Nat) (p : α)
    (h : jwt_decode expOf tok key now = some p) : p = tok.payload := by
  unfold jwt_decode at h
  by_cases hs : tok.sig = (tok.payload, key)
  · rw [if_pos hs] at h
    by_cases he : expOf tok.payload < now
    · rw [if_pos he] at h; cases h
    · rw [if_neg he] at h
      exact (Option.some_inj.mp h).symm
  · rw [if_neg hs] at h; cases h

/-- Claim C6: verifying an unexpired session token issued for a subject
yields back that subject; verification fails with the credentials exception
when the signature is tampered with (it no longer matches the payload under
the secret), when the expiry instant has passed, and when the decoded
payload carries no sub claim. -/
theorem session_token_roundtrip_and_failure_modes
    (s key : String) (issuedAt checkedAt : Nat) (tok : Signed Claims) :
    (checkedAt ≤ issuedAt + ACCESS_TOKEN_EXPIRE_MINUTES * 60 →
      verify_token (create_access_token (some s) none key issuedAt) key checkedAt =
        Except.ok s) ∧
    (tok.sig ≠ (tok.payload, key) →
      verify_token tok key checkedAt = Except.error credentials_exception) ∧
    (tok.payload.exp < checkedAt →
      verify_token tok key checkedAt = Except.error credentials_exception) ∧
    (tok.payload.sub = none →
      verify_token tok key checkedAt = Except.error credentials_exception) := by
  refine ⟨?_, ?_, ?_, ?_⟩
  · intro hfresh
    unfold verify_token create_access_token jwt_encode jwt_decode
    rw [if_pos rfl, if_neg (by simpa using hfresh)]
  · intro htamper
    unfold verify_token jwt_decode
    rw [if_neg htamper]
  · intro hexp
    unfold verify_token jwt_decode
    by_cases hs : tok.sig = (tok.payload, key)
    · rw [if_pos hs, if_pos hexp]
    · rw [if_neg hs]
  · intro hnosub
    unfold verify_token jwt_decode
    by_cases hs : tok.sig = (tok.payload, key)
    · rw [if_pos hs]
      by_cases he : tok.payload.exp < checkedAt
      · rw [if_pos he]
      · rw [if_neg he]
        simp [hnosub]
    · rw [if_neg hs]

/-- Claim C6 witness: a token for alice verifies back to alice before its
30-minute expiry; a tampered signature, an elapsed expiry and a missing sub
claim each produce the credentials exception. -/
theorem session_token_roundtrip_and_failure_modes_witness :
    verify_token (create_access_token (some "alice") none "k" 0) "k" 100 =
      Except.ok "alice" ∧
    verify_token
        ⟨{ sub := some "alice", exp := 500 },
         ({ sub := some "alice", exp := 500 }, "other")⟩ "k" 100 =
      Except.error credentials_exception ∧
    verify_token (create_access_token (some "alice") none "k" 0) "k" 9999 =
      Except.error credentials_exception ∧
    verify_token (create_access_token none none "k" 0) "k" 100 =
      Except.error credentials_exception :=
  ⟨(session_token_roundtrip_and_failure_modes "alice" "k" 0 100
      (create_access_token (some "alice") none "k" 0)).1 (by decide),
   (session_token_roundtrip_and_failure_modes "alice" "k" 0 100
      ⟨{ sub := some "alice", exp := 500 },
       ({ sub := some "alice", exp := 500 }, "other")⟩).2.1 (by decide),
   (session_token_roundtrip_and_failure_modes "alice" "k" 0 9999
      (create_access_token (some "alice") none "k" 0)).2.2.1 (by decide),
   (session_token_roundtrip_and_failure_modes "alice" "k" 0 100
      (create_access_token none none "k" 0)).2.2.2 (by decide)⟩

end PythonCurd.Security

namespace PythonCurd.UserModel

open PythonCurd.Security

/-- Point lookups by id commute with an id-preserving per-document update. -/
theorem get_by_id_map (store : List UserRec) (uid : Nat) (f : UserRec → UserRec)
    (hf : ∀ v, (f v).id = v.id) :
    get_by_id (store.map f) uid = (get_by_id store uid).map f := by
  induction store with
  | nil => rfl
  | cons a tl ih =>
    unfold get_by_id at ih ⊢
    rw [List.map_cons]
    cases hb : a.id == uid with
    | true =>
      have hb2 : ((f a).id == uid) = true := by rw [hf a]; exact hb
      simp [List.find?, hb, hb2]
    | false =>
      have hb2 : ((f a).id == uid) = false := by rw [hf a]; exact hb
      simp [List.find?, hb, hb2, ih]

/-- Inversion of a successful reset-token verification: the token names the
returned user, the user is in the store, and the persisted token equals the
presented one. -/
theorem verify_reset_token_some (store : List UserRec) (tok : Signed ResetClaims)
    (key : String) (now : Nat) (u : UserRec)
    (h : verify_reset_token store tok key now = some u) :
    tok.payload.user_id = some u.id ∧ get_by_id store u.id = some u ∧
      u.reset_token = some tok := by
  unfold verify_reset_token at h
  split at h
  · cases h
  · rename_i payload hd
    have hp := jwt_decode_some ResetClaims.exp tok key now payload hd
    subst hp
    split at h
    · cases h
    · rename_i uid hu
      split at h
      · cases h
      · rename_i w hg
        split at h
        · cases h
        · rename_i ht
          push_neg at ht
          split at h
          · cases h
          · rename_i e2 he
            split at h
            · cases h
            · injection h with h2
              subst h2
              have hg2 := hg
              unfold get_by_id at hg2
              have hb := List.find?_some hg2
              have hid2 : w.id = uid := by simpa using hb
              subst hid2
              exact ⟨hu, hg, ht⟩

/-- Claim C7: reset-token verification fails closed on a tampered signature,
on a mismatch with the token persisted on the user record, and on an elapsed
persisted expiry; and once `reset_password` succeeds with a token, a second
verification of that same token fails at every later instant — even before
the signed one-hour expiry — because the persisted copy was removed by the
reset. -/
theorem reset_token_fails_closed_and_single_use :
    (∀ (store : List UserRec) (tok : Signed ResetClaims) (key : String) (now : Nat),
      tok.sig ≠ (tok.payload, key) →
      verify_reset_token store tok key now = none) ∧
    (∀ (store : List UserRec) (tok : Signed ResetClaims) (key : String)
        (now uid : Nat) (u : UserRec),
      tok.payload.user_id = some uid → get_by_id store uid = some u →
      u.reset_token ≠ some tok →
      verify_reset_token store tok key now = none) ∧
    (∀ (store : List UserRec) (tok : Signed ResetClaims) (key : String)
        (now uid : Nat) (u : UserRec) (e : Nat),
      tok.payload.user_id = some uid → get_by_id store uid = some u →
      u.reset_token_expires = some e → e < now →
      verify_reset_token store tok key now = none) ∧
    (∀ (store : List UserRec) (tok : Signed ResetClaims) (pw key : String)
        (now now2 : Nat),
      (reset_password store tok pw key now).1 = true →
      verify_reset_token (reset_password store tok pw key now).2 tok key now2 = none) := by
  refine ⟨?_, ?_, ?_, ?_⟩
  · intro store tok key now hsig
    unfold verify_reset_token jwt_decode
    rw [if_neg hsig]
  · intro store tok key now uid u hid hget hne
    unfold verify_reset_token
    cases hd : jwt_decode ResetClaims.exp tok key now with
    | none => rfl
    | some p =>
      have hp := jwt_decode_some ResetClaims.exp tok key now p hd
      subst hp
      simp [hid, hget, hne]
  · intro store tok key now uid u e hid hget hexp hlt
    unfold verify_reset_token
    cases hd : jwt_decode ResetClaims.exp tok key now with
    | none => rfl
    | some p =>
      have hp := jwt_decode_some ResetClaims.exp tok key now p hd
      subst hp
      by_cases hne : u.reset_token ≠ some tok
      · simp [hid, hget, hne]
      · simp [hid, hget, hne, hexp, hlt]
  · intro store tok pw key now now2 hsucc
    unfold reset_password at hsucc ⊢
    cases hv : verify_reset_token store tok key now with
    | none => rw [hv] at hsucc; simp at hsucc
    | some user =>
      obtain ⟨hid, hget, htok⟩ := verify_reset_token_some store tok key now user hv
      unfold verify_reset_token
      cases hd : jwt_decode ResetClaims.exp tok key now2 with
      | none => rfl
      | some p =>
        have hp := jwt_decode_some ResetClaims.exp tok key now2 p hd
        subst hp
        have hf : ∀ v : UserRec,
            ((fun v : UserRec => if v.id == user.id then
                { v with password := get_password_hash pw,
                         reset_token := none, reset_token_expires := none }
              else v) v).id = v.id := by
          intro v; dsimp only; split <;> rfl
        have hmap := get_by_id_map store user.id _ hf
        rw [hget] at hmap
        simp at hmap
        simp [hid, hmap]

/-- Claim C7 witness: tampered signature, persisted-token mismatch, elapsed
persisted expiry, and second use of a consumed token each verify to none. -/
theorem reset_token_fails_closed_and_single_use_witness :
    verify_reset_token []
        (⟨⟨some 1, 50⟩, (⟨some 1, 50⟩, "bad")⟩ : Signed ResetClaims) "k" 0 = none ∧
    verify_reset_token [⟨1, "alice", "alice@example.com", "h", none, some 5⟩]
        (⟨⟨some 1, 99⟩, (⟨some 1, 99⟩, "k")⟩ : Signed ResetClaims) "k" 0 = none ∧
    verify_reset_token
        [⟨1, "alice", "alice@example.com", "h",
          some ⟨⟨some 1, 1000⟩, (⟨some 1, 1000⟩, "k")⟩, some 1000⟩]
        (⟨⟨some 1, 1000⟩, (⟨some 1, 1000⟩, "k")⟩ : Signed ResetClaims) "k" 2000 = none ∧
    verify_reset_token
        (reset_password
          [⟨1, "alice", "alice@example.com", "h",
            some ⟨⟨some 1, 1000⟩, (⟨some 1, 1000⟩, "k")⟩, some 1000⟩]
          (⟨⟨some 1, 1000⟩, (⟨some 1, 1000⟩, "k")⟩ : Signed ResetClaims)
          "newpw" "k" 10).2
        (⟨⟨some 1, 1000⟩, (⟨some 1, 1000⟩, "k")⟩ : Signed ResetClaims) "k" 20 = none :=
  ⟨reset_token_fails_closed_and_single_use.1 []
      ⟨⟨some 1, 50⟩, (⟨some 1, 50⟩, "bad")⟩ "k" 0 (by decide),
   reset_token_fails_closed_and_single_use.2.1
      [⟨1, "alice", "alice@example.com", "h", none, some 5⟩]
      ⟨⟨some 1, 99⟩, (⟨some 1, 99⟩, "k")⟩ "k" 0 1
      ⟨1, "alice", "alice@example.com", "h", none, some 5⟩
      (by decide) (by decide) (by decide),
   reset_token_fails_closed_and_single_use.2.2.1
      [⟨1, "alice", "alice@example.com", "h",
        some ⟨⟨some 1, 1000⟩, (⟨some 1, 1000⟩, "k")⟩, some 1000⟩]
      ⟨⟨some 1, 1000⟩, (⟨some 1, 1000⟩, "k")⟩ "k" 2000 1
      ⟨1, "alice", "alice@example.com", "h",
        some ⟨⟨some 1, 1000⟩, (⟨some 1, 1000⟩, "k")⟩, some 1000⟩ 1000
      (by decide) (by decide) (by decide) (by decide),
   reset_token_fails_closed_and_single_use.2.2.2
      [⟨1, "alice", "alice@example.com", "h",
        some ⟨⟨some 1, 1000⟩, (⟨some 1, 1000⟩, "k")⟩, some 1000⟩]
      ⟨⟨some 1, 1000⟩, (⟨some 1, 1000⟩, "k")⟩ "newpw" "k" 10 20 (by decide)⟩

end PythonCurd.UserModel

namespace PythonCurd.Routes

open PythonCurd.Security PythonCurd.UserModel

/-- Claim C8: a structurally valid, correctly signed, unexpired bearer token
whose subject no longer resolves to a user in the users collection makes
both token-gated dependencies reject the request with the user-not-found
message — raised as a 400 `ValidationError` on the student routes and as a
404 `NotFoundError` on `/me` — so the request never reaches a handler body
as an authenticated one. -/
theorem deleted_user_token_rejected_not_authenticated
    (store : List UserRec) (tok : Signed Claims) (key : String) (now : Nat)
    (s : String)
    (hok : verify_token tok key now = Except.ok s)
    (hmiss : get_by_username store s = none) :
    student_get_current_user store tok key now =
      Except.error (AuthReject.appError (validationError USER_NOT_FOUND)) ∧
    auth_me_get_current_user store tok key now =
      Except.error (AuthReject.appError (notFoundError USER_NOT_FOUND)) := by
  unfold student_get_current_user auth_me_get_current_user
  constructor <;> simp [hok, hmiss]

/-- Claim C8 witness: a fresh, valid token for the subject ghost against an
empty users collection. -/
theorem deleted_user_token_rejected_not_authenticated_witness :
    (student_get_current_user []
        (create_access_token (some "ghost") none "k" 0) "k" 100 =
      Except.error (AuthReject.appError (validationError USER_NOT_FOUND)) ∧
     auth_me_get_current_user []
        (create_access_token (some "ghost") none "k" 0) "k" 100 =
      Except.error (AuthReject.appError (notFoundError USER_NOT_FOUND))) :=
  deleted_user_token_rejected_not_authenticated []
    (create_access_token (some "ghost") none "k" 0) "k" 100 "ghost" rfl rfl

/-- Claim C9: two forgot-password requests that both complete without a
delivery error — one for an email present in the user collection, one for an
absent email — receive the identical response message, so the response does
not reveal whether the email exists. -/
theorem forgot_password_uniform_message
    (store : List UserRec) (key : String) (now : Nat) (e1 e2 : String)
    (ok1 ok2 : Bool) (m1 m2 : String) (st1 st2 : List UserRec)
    (hreg : (get_by_email store e1).isSome = true)
    (hunreg : get_by_email store e2 = none)
    (h1 : forgot_password store e1 key now ok1 = Except.ok (m1, st1))
    (h2 : forgot_password store e2 key now ok2 = Except.ok (m2, st2)) :
    m1 = m2 := by
  have hmsg : ∀ (e : String) (ok : Bool) (m : String) (st : List UserRec),
      forgot_password store e key now ok = Except.ok (m, st) →
      m = genericResetMessage := by
    intro e ok m st h
    unfold forgot_password at h
    split at h
    · simp at h
      exact h.1.symm
    · split at h
      · simp at h
        exact h.1.symm
      · cases h
  exact (hmsg e1 ok1 m1 st1 h1).trans (hmsg e2 ok2 m2 st2 h2).symm

/-- Claim C9 witness: a store containing alice; requests for the alice email
and for an unknown bob email both yield the generic message. -/
theorem forgot_password_uniform_message_witness :
    (get_by_email [⟨1, "alice", "alice@example.com", "h", none, none⟩]
        "alice@example.com").isSome = true ∧
    get_by_email [⟨1, "alice", "alice@example.com", "h", none, none⟩]
        "bob@example.com" = none ∧
    genericResetMessage = genericResetMessage :=
  ⟨rfl, rfl,
   forgot_password_uniform_message
     [⟨1, "alice", "alice@example.com", "h", none, none⟩] "k" 5
     "alice@example.com" "bob@example.com" true true
     genericResetMessage genericResetMessage
     [⟨1, "alice", "alice@example.com", "h",
        some ⟨⟨some 1, 3605⟩, (⟨some 1, 3605⟩, "k")⟩, some 3605⟩]
     [⟨1, "alice", "alice@example.com", "h", none, none⟩]
     rfl rfl rfl rfl⟩

end PythonCurd.Routes
